import Mathlib

/-!
Verification of the dalberg pipeline's metrics core: the Insights Engine
(`src/insights_engine/generate_insights.py`) and the Bias/Fairness Checker
(`src/data_processing/bias_checks.py`).

Modelling conventions (shallow embedding of the pandas code):
* A pandas `DataFrame` is a list of column names together with a list of
  rows; every cell is a rational number (the source only does exact
  arithmetic on its inputs apart from `sqrt` in the standard deviation,
  see `output_std` below).
* A float value that can be NaN is modelled as `Option ℚ`, `none` standing
  for NaN.  `Series.mean()` on an empty selection is NaN in pandas, hence
  `meanQ` returns `none` on `[]`.  A Python comparison `NaN > t` is `False`,
  hence `gtNaN none t = false`.
* Python dictionaries returned by the metric functions are modelled as
  structures; a key that is only conditionally inserted becomes an `Option`
  field with `none` for "absent".
* A function that returns the soft `{'error': ...}` dictionary instead of
  metrics is modelled with `SoftResult`; `generate_insights`, which raises
  on an empty frame, is modelled with `Except`.
-/

namespace Dalberg

/-- A tabular dataset: named columns and rows of rational cells.
Mirrors the pandas `DataFrame` as used by the metrics core. -/
structure DataFrame where
  colNames : List String
  rows : List (List ℚ)
deriving Repr

/-- Index of a named column, `none` when the column is absent. -/
def DataFrame.colIdx (df : DataFrame) (name : String) : Option Nat :=
  df.colNames.findIdx? (fun c => c == name)

/-- `name in df.columns` of the source. -/
def DataFrame.hasCol (df : DataFrame) (name : String) : Bool :=
  (df.colIdx name).isSome

/-- The values of column `name` (`df[name]` of the source); `[]` when the
column is absent.  Cells of a ragged row default to `0`; the source never
produces ragged frames. -/
def DataFrame.colD (df : DataFrame) (name : String) : List ℚ :=
  match df.colIdx name with
  | some i => df.rows.map (fun r => r.getD i 0)
  | none => []

/-- pandas `df.empty`: true when either axis has length zero. -/
def DataFrame.isEmpty (df : DataFrame) : Bool :=
  df.rows.length == 0 || df.colNames.length == 0

/-- `Series.mean()`: NaN (`none`) on an empty selection, else the exact
arithmetic mean. -/
def meanQ (v : List ℚ) : Option ℚ :=
  if v.length = 0 then none else some (v.sum / v.length)

/-- Ascending sort of a column, as pandas `median` performs internally. -/
def sortAsc (v : List ℚ) : List ℚ :=
  v.insertionSort (· ≤ ·)

/-- `Series.median()`: NaN on empty; middle element for odd length, mean of
the two middle elements for even length. -/
def medianQ (v : List ℚ) : Option ℚ :=
  if v.length = 0 then none
  else
    let s := sortAsc v
    let n := v.length
    if n % 2 = 1 then some (s.getD (n / 2) 0)
    else some ((s.getD (n / 2 - 1) 0 + s.getD (n / 2) 0) / 2)

/-- The sample variance underlying `Series.std()` (denominator `n - 1`):
NaN (`none`) when fewer than two values.  The source stores the standard
deviation, i.e. the square root of this value; over `ℚ` we carry the
variance, which is NaN, zero or positive in exactly the cases where the
standard deviation is. -/
def sampleVarQ (v : List ℚ) : Option ℚ :=
  if v.length ≤ 1 then none
  else
    match meanQ v with
    | none => none
    | some m => some ((v.map (fun x => (x - m) ^ 2)).sum / ((v.length : ℚ) - 1))

/-- The Python comparison `x > t` where `x` may be NaN: NaN compares false. -/
def gtNaN (q : Option ℚ) (t : ℚ) : Bool :=
  match q with
  | none => false
  | some x => decide (t < x)

/-- Result of one metric sub-function: either the soft error dictionary
`{'error': msg}` or the computed metrics. -/
inductive SoftResult (α : Type) where
  | err : String → SoftResult α
  | ok : α → SoftResult α
deriving Repr, DecidableEq

/-- The dictionary returned by `calculate_credit_access_metrics`. -/
structure CreditMetrics where
  credit_approval_rate : ℚ
  average_loan_amount : ℚ
  total_applications : Nat
  total_approved : Nat
  total_rejected : Nat
  rejection_rate : ℚ
deriving Repr, DecidableEq

/-- `calculate_credit_access_metrics` of `generate_insights.py`. -/
def calculate_credit_access_metrics (df : DataFrame) : SoftResult CreditMetrics :=
  if ¬ df.hasCol "credit_approved" then .err "credit_approved column not found"
  else if ¬ df.hasCol "loan_amount" then .err "loan_amount column not found"
  else
    let total_applications := df.rows.length
    let ci := (df.colIdx "credit_approved").getD 0
    let li := (df.colIdx "loan_amount").getD 0
    let approvedRows := df.rows.filter (fun r => r.getD ci 0 == 1)
    let approved_count := approvedRows.length
    let rejected_count := total_applications - approved_count
    let approved_loans := approvedRows.map (fun r => r.getD li 0)
    let average_loan : ℚ :=
      if approved_count > 0 then (meanQ approved_loans).getD 0 else 0
    .ok {
      credit_approval_rate :=
        if total_applications > 0 then (approved_count : ℚ) / total_applications else 0
      average_loan_amount := average_loan
      total_applications := total_applications
      total_approved := approved_count
      total_rejected := rejected_count
      rejection_rate :=
        if total_applications > 0 then (rejected_count : ℚ) / total_applications else 0 }

/-- The dictionary returned by `analyze_agriculture_output`.  `output_std`
carries the sample variance; see `sampleVarQ`. -/
structure AgricultureMetrics where
  total_agriculture_output : ℚ
  average_output_per_household : Option ℚ
  median_output_per_household : Option ℚ
  output_std : Option ℚ
  food_security_score : ℚ
  household_count : Nat
deriving Repr, DecidableEq

/-- The normalized score `mean/max if max > 0 else 0.0` of
`analyze_agriculture_output`; on an empty column `max` is NaN and the Python
guard `NaN > 0` is false, so the score is `0.0`, never NaN. -/
def foodSecurityScoreQ (v : List ℚ) : ℚ :=
  match v.max? with
  | some m => if 0 < m then (meanQ v).getD 0 / m else 0
  | none => 0

/-- `analyze_agriculture_output` of `generate_insights.py`. -/
def analyze_agriculture_output (df : DataFrame) : SoftResult AgricultureMetrics :=
  if ¬ df.hasCol "agriculture_output" then .err "agriculture_output column not found"
  else
    let v := df.colD "agriculture_output"
    .ok {
      total_agriculture_output := v.sum
      average_output_per_household := meanQ v
      median_output_per_household := medianQ v
      output_std := sampleVarQ v
      food_security_score := foodSecurityScoreQ v
      household_count := df.rows.length }

/-- The dictionary returned by `assess_women_inclusion`.  The last three
keys are only inserted when the women subset is non-empty and the relevant
column exists; `none` models an absent key. -/
structure WomenMetrics where
  women_participation_rate : ℚ
  total_women : Nat
  total_men : Nat
  total_participants : Nat
  gender_balance_score : ℚ
  women_decision_making_score : Option ℚ
  women_leadership_rate : Option ℚ
  women_leaders_count : Option Nat
deriving Repr, DecidableEq

/-- `assess_women_inclusion` of `generate_insights.py`. -/
def assess_women_inclusion (df : DataFrame) : SoftResult WomenMetrics :=
  if ¬ df.hasCol "gender" then .err "gender column not found"
  else
    let total_participants := df.rows.length
    let gi := (df.colIdx "gender").getD 0
    let womenRows := df.rows.filter (fun r => r.getD gi 0 == 0)
    let women_count := womenRows.length
    let men_count := total_participants - women_count
    let women_participation_rate : ℚ :=
      if total_participants > 0 then (women_count : ℚ) / total_participants else 0
    let base : WomenMetrics := {
      women_participation_rate := women_participation_rate
      total_women := women_count
      total_men := men_count
      total_participants := total_participants
      gender_balance_score := 1 - |women_participation_rate - 1/2| * 2
      women_decision_making_score := none
      women_leadership_rate := none
      women_leaders_count := none }
    if women_count > 0 then
      let di := (df.colIdx "decision_making").getD 0
      let li := (df.colIdx "is_leader").getD 0
      let leader_count := (womenRows.filter (fun r => r.getD li 0 == 1)).length
      .ok { base with
        women_decision_making_score :=
          if df.hasCol "decision_making" then
            meanQ (womenRows.map (fun r => r.getD di 0))
          else none
        women_leadership_rate :=
          if df.hasCol "is_leader" then
            some (if women_count > 0 then (leader_count : ℚ) / women_count else 0)
          else none
        women_leaders_count :=
          if df.hasCol "is_leader" then some leader_count else none }
    else .ok base

/-- A value of the insights dictionary, tagged by metric group. -/
inductive InsightValue where
  | credit : SoftResult CreditMetrics → InsightValue
  | food : SoftResult AgricultureMetrics → InsightValue
  | women : SoftResult WomenMetrics → InsightValue
deriving Repr, DecidableEq

/-- `generate_insights` of `generate_insights.py`: raises `ValueError` on an
empty frame (modelled by `Except.error`), otherwise builds the dictionary
with exactly the keys `credit_access`, `food_security`, `women_agency`. -/
def generate_insights (df : DataFrame) :
    Except String (List (String × InsightValue)) :=
  if df.isEmpty then .error "Cannot generate insights from empty DataFrame"
  else .ok [
    ("credit_access", .credit (calculate_credit_access_metrics df)),
    ("food_security", .food (analyze_agriculture_output df)),
    ("women_agency", .women (assess_women_inclusion df))]

/-- The `demographic_parity` sub-dictionary of a bias report; either rate is
`none` when the corresponding subset was empty (pandas mean = NaN). -/
structure DemographicParity where
  privileged_rate : Option ℚ
  unprivileged_rate : Option ℚ
deriving Repr, DecidableEq

/-- The dictionary returned by `check_for_bias`.  For the three numeric
fields, the outer `none` models a key that is still `None` (or absent in the
early-return dictionaries); for `statistical_parity_difference` the inner
`none` models an assigned NaN. -/
structure BiasReport where
  has_bias : Bool
  demographic_parity : Option DemographicParity
  equalized_odds : Option ℚ
  statistical_parity_difference : Option (Option ℚ)
  message : String
deriving Repr, DecidableEq

/-- Exact rendering of a possibly-NaN rational inside a message string.  The
source formats floats with three decimals; no claim depends on the printed
digits, so we render the exact numerator and denominator instead. -/
def fmtRate (q : Option ℚ) : String :=
  match q with
  | none => "nan"
  | some x => toString x.num ++ "/" ++ toString x.den

/-- The rows whose `attr` cell equals `v`: the subset selected by
`df[df[attr] == v]` in the source. -/
def subsetRows (df : DataFrame) (attr : String) (v : ℚ) : List (List ℚ) :=
  df.rows.filter (fun r => r.getD ((df.colIdx attr).getD 0) 0 == v)

/-- Mean of `target` over the rows whose `attr` cell equals `v`:
`df[df[attr] == v][target].mean()` of the source; NaN when the subset is
empty. -/
def subsetRate (df : DataFrame) (attr : String) (v : ℚ) (target : String) : Option ℚ :=
  meanQ ((subsetRows df attr v).map (fun r => r.getD ((df.colIdx target).getD 0) 0))

/-- `check_for_bias` of `bias_checks.py`.  `privVal`/`unprivVal` are the
values stored in `privileged_groups[0]`/`unprivileged_groups[0]` under the
protected attribute (defaults 1 and 0).  The Python condition
`if target_column and target_column in df.columns` treats the empty string
as falsy, hence the `t ≠ ""` test.  The `except` clause of the source is
unreachable for table inputs (every operation in the `try` block is total
on a frame), so the embedding is a total function. -/
def check_for_bias (df : DataFrame) (protected_attribute : String := "gender")
    (privVal : ℚ := 1) (unprivVal : ℚ := 0)
    (target_column : Option String := none) (threshold : ℚ := 1/5) : BiasReport :=
  if df.isEmpty then
    { has_bias := false
      demographic_parity := none
      equalized_odds := none
      statistical_parity_difference := none
      message := "Cannot check bias on empty dataset" }
  else if ¬ df.hasCol protected_attribute then
    { has_bias := false
      demographic_parity := none
      equalized_odds := none
      statistical_parity_difference := none
      message := "Protected attribute " ++ protected_attribute ++ " not in dataset" }
  else
    let outcomeMode : Option String :=
      match target_column with
      | some t => if t ≠ "" ∧ df.hasCol t then some t else none
      | none => none
    match outcomeMode with
    | some t =>
      let privileged_rate := subsetRate df protected_attribute privVal t
      let unprivileged_rate := subsetRate df protected_attribute unprivVal t
      let statistical_parity_diff : Option ℚ :=
        match privileged_rate, unprivileged_rate with
        | some p, some u => some |p - u|
        | _, _ => none
      let biased := gtNaN statistical_parity_diff threshold
      { has_bias := biased
        demographic_parity := some ⟨privileged_rate, unprivileged_rate⟩
        equalized_odds := none
        statistical_parity_difference := some statistical_parity_diff
        message :=
          if biased then
            "Significant bias detected. Statistical parity difference: " ++
              fmtRate statistical_parity_diff ++ " (threshold: " ++
              fmtRate (some threshold) ++ ")"
          else
            "No significant bias detected. Statistical parity difference: " ++
              fmtRate statistical_parity_diff }
    | none =>
      let col := df.colD protected_attribute
      let distinct := col.dedup
      if distinct.length > 1 then
        let freqs := distinct.map (fun x => (col.count x : ℚ) / col.length)
        let maxDiff := (freqs.max?).getD 0 - (freqs.min?).getD 0
        if threshold < maxDiff then
          { has_bias := true
            demographic_parity := none
            equalized_odds := none
            statistical_parity_difference := none
            message := "Potential demographic imbalance detected. Max difference: " ++
              fmtRate (some maxDiff) }
        else
          { has_bias := false
            demographic_parity := none
            equalized_odds := none
            statistical_parity_difference := none
            message := "No significant demographic imbalance detected" }
      else
        { has_bias := false
          demographic_parity := none
          equalized_odds := none
          statistical_parity_difference := none
          message := "" }

/-! ### Helper lemmas -/

/-- A present column has exactly one value per row. -/
theorem colD_length (df : DataFrame) (name : String) (h : df.hasCol name = true) :
    (df.colD name).length = df.rows.length := by
  unfold DataFrame.colD
  unfold DataFrame.hasCol at h
  cases hci : df.colIdx name with
  | none => rw [hci] at h; simp at h
  | some i => simp

/-- `meanQ` only depends on the multiset of values. -/
theorem meanQ_perm {l l' : List ℚ} (h : l.Perm l') : meanQ l = meanQ l' := by
  unfold meanQ
  rw [h.length_eq, h.sum_eq]

/-- Sorting two permutations of the same values gives the same list. -/
theorem sortAsc_perm_congr {l l' : List ℚ} (h : l.Perm l') : sortAsc l = sortAsc l' :=
  List.eq_of_perm_of_sorted
    ((List.perm_insertionSort _ l).trans (h.trans (List.perm_insertionSort _ l').symm))
    (List.sorted_insertionSort _ l) (List.sorted_insertionSort _ l')

/-- `medianQ` only depends on the multiset of values. -/
theorem medianQ_perm {l l' : List ℚ} (h : l.Perm l') : medianQ l = medianQ l' := by
  unfold medianQ
  rw [h.length_eq, sortAsc_perm_congr h]

/-- `sampleVarQ` only depends on the multiset of values. -/
theorem sampleVarQ_perm {l l' : List ℚ} (h : l.Perm l') :
    sampleVarQ l = sampleVarQ l' := by
  have hsum : ∀ m : ℚ, (l.map (fun x => (x - m) ^ 2)).sum =
      (l'.map (fun x => (x - m) ^ 2)).sum := fun m => (h.map _).sum_eq
  unfold sampleVarQ
  rw [h.length_eq, meanQ_perm h]
  cases meanQ l' <;> simp [hsum]

/-- `List.max?` only depends on the multiset of values. -/
theorem max?_perm {l l' : List ℚ} (h : l.Perm l') : l.max? = l'.max? := by
  haveI : Std.Antisymm ((· : ℚ) ≤ ·) := ⟨fun h h' => le_antisymm h h'⟩
  have key : ∀ {m : List ℚ} {a : ℚ}, m.max? = some a ↔ a ∈ m ∧ ∀ b ∈ m, b ≤ a :=
    fun {m a} => List.max?_eq_some_iff (fun _ => le_refl _) (fun _ _ => max_choice _ _)
      (fun _ _ _ => max_le_iff)
  cases hm : l'.max? with
  | none =>
    rw [List.max?_eq_none_iff] at hm ⊢
    exact (hm ▸ h).eq_nil
  | some a =>
    rw [key] at hm ⊢
    exact ⟨h.mem_iff.mpr hm.1, fun b hb => hm.2 b (h.subset hb)⟩

/-- Membership bound extracted from `List.max?`. -/
theorem max?_spec {l : List ℚ} {M : ℚ} (h : l.max? = some M) :
    M ∈ l ∧ ∀ b ∈ l, b ≤ M := by
  haveI : Std.Antisymm ((· : ℚ) ≤ ·) := ⟨fun h h' => le_antisymm h h'⟩
  exact (List.max?_eq_some_iff (fun _ => le_refl _) (fun _ _ => max_choice _ _)
    (fun _ _ _ => max_le_iff)).1 h

/-- The mean of a non-empty list of values lies between `0` and the maximum
when every value is non-negative. -/
theorem meanQ_nonneg_le_max {l : List ℚ} {M a : ℚ} (hne : l ≠ [])
    (hnn : ∀ x ∈ l, 0 ≤ x) (hmax : l.max? = some M) (hmean : meanQ l = some a) :
    0 ≤ a ∧ a ≤ M := by
  have hlen : l.length ≠ 0 := fun hc => hne (List.length_eq_zero.mp hc)
  have hlpos : (0 : ℚ) < l.length := by positivity
  unfold meanQ at hmean
  rw [if_neg hlen] at hmean
  have ha : a = l.sum / l.length := by exact (Option.some.injEq _ _).mp hmean.symm
  obtain ⟨-, hub⟩ := max?_spec hmax
  have hsum_le : l.sum ≤ (l.length : ℚ) * M := by
    have := List.sum_le_card_nsmul l M hub
    rwa [nsmul_eq_mul] at this
  constructor
  · rw [ha]
    exact div_nonneg (List.sum_nonneg hnn) (le_of_lt hlpos)
  · rw [ha, div_le_iff₀ hlpos]
    linarith

/-! ### C5, C6, C7, C10 -/

/-- C5: if the required column of an insights sub-function is absent
(`credit_approved` or `loan_amount` for `calculate_credit_access_metrics`,
`agriculture_output` for `analyze_agriculture_output`, `gender` for
`assess_women_inclusion`), that sub-function returns the soft error value
`{'error': "<column name> column not found"}` instead of raising. -/
theorem insights_missing_column_soft_error (df : DataFrame) :
    (df.hasCol "credit_approved" = false →
      calculate_credit_access_metrics df = .err "credit_approved column not found") ∧
    (df.hasCol "credit_approved" = true → df.hasCol "loan_amount" = false →
      calculate_credit_access_metrics df = .err "loan_amount column not found") ∧
    (df.hasCol "agriculture_output" = false →
      analyze_agriculture_output df = .err "agriculture_output column not found") ∧
    (df.hasCol "gender" = false →
      assess_women_inclusion df = .err "gender column not found") := by
  refine ⟨fun h => ?_, fun h1 h2 => ?_, fun h => ?_, fun h => ?_⟩
  · simp [calculate_credit_access_metrics, h]
  · simp [calculate_credit_access_metrics, h1, h2]
  · simp [analyze_agriculture_output, h]
  · simp [assess_women_inclusion, h]

/-- Witness for C5 at a table that has none of the required columns, and one
that has `credit_approved` but no `loan_amount`. -/
theorem insights_missing_column_soft_error_witness :
    calculate_credit_access_metrics ⟨["x"], [[1]]⟩ =
      .err "credit_approved column not found" ∧
    calculate_credit_access_metrics ⟨["credit_approved"], [[1]]⟩ =
      .err "loan_amount column not found" ∧
    analyze_agriculture_output ⟨["x"], [[1]]⟩ =
      .err "agriculture_output column not found" ∧
    assess_women_inclusion ⟨["x"], [[1]]⟩ =
      .err "gender column not found" := by
  refine ⟨(insights_missing_column_soft_error ⟨["x"], [[1]]⟩).1 (by decide),
    (insights_missing_column_soft_error ⟨["credit_approved"], [[1]]⟩).2.1
      (by decide) (by decide),
    (insights_missing_column_soft_error ⟨["x"], [[1]]⟩).2.2.1 (by decide),
    (insights_missing_column_soft_error ⟨["x"], [[1]]⟩).2.2.2 (by decide)⟩

/-- C6: `generate_insights` raises (`ValueError`, modelled as `Except.error`)
exactly on an empty table, and on every non-empty table returns a mapping
whose keys are exactly `credit_access`, `food_security`, `women_agency`. -/
theorem generate_insights_contract (df : DataFrame) :
    (df.isEmpty = true →
      generate_insights df = .error "Cannot generate insights from empty DataFrame") ∧
    (df.isEmpty = false →
      generate_insights df = .ok [
        ("credit_access", .credit (calculate_credit_access_metrics df)),
        ("food_security", .food (analyze_agriculture_output df)),
        ("women_agency", .women (assess_women_inclusion df))] ∧
      (generate_insights df).toOption.map (fun l => l.map Prod.fst) =
        some ["credit_access", "food_security", "women_agency"]) := by
  constructor
  · intro h
    simp [generate_insights, h]
  · intro h
    constructor
    · simp [generate_insights, h]
    · simp [generate_insights, h, Except.toOption]

/-- Witness for C6 at an empty and at a non-empty table. -/
theorem generate_insights_contract_witness :
    generate_insights ⟨["gender"], []⟩ =
      .error "Cannot generate insights from empty DataFrame" ∧
    (generate_insights ⟨["gender"], [[0]]⟩).toOption.map (fun l => l.map Prod.fst) =
      some ["credit_access", "food_security", "women_agency"] := by
  exact ⟨(generate_insights_contract ⟨["gender"], []⟩).1 (by decide),
    ((generate_insights_contract ⟨["gender"], [[0]]⟩).2 (by decide)).2⟩

/-- C7: on every empty table `check_for_bias` returns the soft report with
`has_bias = false` and the message `"Cannot check bias on empty dataset"`,
which contains the word `"empty"`; no exception is raised (the embedded
function is total). -/
theorem check_for_bias_empty_dataset (df : DataFrame) (pa : String) (pv uv : ℚ)
    (t : Option String) (thr : ℚ) (h : df.isEmpty = true) :
    check_for_bias df pa pv uv t thr =
      { has_bias := false, demographic_parity := none, equalized_odds := none,
        statistical_parity_difference := none,
        message := "Cannot check bias on empty dataset" } ∧
    (∃ pre post, (check_for_bias df pa pv uv t thr).message =
      pre ++ "empty" ++ post) := by
  have heq : check_for_bias df pa pv uv t thr =
      { has_bias := false, demographic_parity := none, equalized_odds := none,
        statistical_parity_difference := none,
        message := "Cannot check bias on empty dataset" } := by
    simp [check_for_bias, h]
  exact ⟨heq, ⟨"Cannot check bias on ", " dataset", by rw [heq]; rfl⟩⟩

/-- Witness for C7 at a concrete empty table. -/
theorem check_for_bias_empty_dataset_witness :
    check_for_bias ⟨["gender"], []⟩ "gender" 1 0 none (1/5) =
      { has_bias := false, demographic_parity := none, equalized_odds := none,
        statistical_parity_difference := none,
        message := "Cannot check bias on empty dataset" } ∧
    (∃ pre post, (check_for_bias ⟨["gender"], []⟩ "gender" 1 0 none (1/5)).message =
      pre ++ "empty" ++ post) :=
  check_for_bias_empty_dataset ⟨["gender"], []⟩ "gender" 1 0 none (1/5) (by decide)

/-- C10: on a table with exactly one row and an `agriculture_output` column,
`analyze_agriculture_output` signals no error; the `output_std` field is NaN
(`none`: the sample variance with denominator `n - 1` is undefined for
`n = 1`), while the mean and the median are ordinary numbers (the remaining
fields `total_agriculture_output`, `food_security_score`, `household_count`
are plain numbers by type). -/
theorem analyze_agriculture_single_row_std_nan (df : DataFrame)
    (hc : df.hasCol "agriculture_output" = true) (h1 : df.rows.length = 1) :
    ∃ m, analyze_agriculture_output df = .ok m ∧ m.output_std = none ∧
      (m.average_output_per_household).isSome = true ∧
      (m.median_output_per_household).isSome = true ∧
      m.household_count = 1 := by
  have hv : (df.colD "agriculture_output").length = 1 := by
    rw [colD_length df _ hc, h1]
  refine ⟨{ total_agriculture_output := (df.colD "agriculture_output").sum,
            average_output_per_household := meanQ (df.colD "agriculture_output"),
            median_output_per_household := medianQ (df.colD "agriculture_output"),
            output_std := sampleVarQ (df.colD "agriculture_output"),
            food_security_score := foodSecurityScoreQ (df.colD "agriculture_output"),
            household_count := df.rows.length }, ?_, ?_, ?_, ?_, by simpa⟩
  · simp [analyze_agriculture_output, hc]
  · simp [sampleVarQ, hv]
  · simp [meanQ, hv]
  · simp [medianQ, hv]

/-- Witness for C10 at a concrete one-row table. -/
theorem analyze_agriculture_single_row_std_nan_witness :
    ∃ m, analyze_agriculture_output ⟨["agriculture_output"], [[100]]⟩ = .ok m ∧
      m.output_std = none ∧
      (m.average_output_per_household).isSome = true ∧
      (m.median_output_per_household).isSome = true ∧
      m.household_count = 1 :=
  analyze_agriculture_single_row_std_nan ⟨["agriculture_output"], [[100]]⟩
    (by decide) (by decide)

/-! ### C2, C3, C4 -/

/-- C2: on every non-empty table whose `agriculture_output` column holds only
non-negative values, the returned `food_security_score` equals
`mean / max` when the maximum is strictly positive and `0.0` when the
maximum is `0`, and it always lies in `[0, 1]`. -/
theorem food_security_score_spec (df : DataFrame)
    (hc : df.hasCol "agriculture_output" = true)
    (hne : df.rows ≠ [])
    (hnn : ∀ x ∈ df.colD "agriculture_output", 0 ≤ x) :
    ∃ m, analyze_agriculture_output df = .ok m ∧
      (∀ a M, meanQ (df.colD "agriculture_output") = some a →
        (df.colD "agriculture_output").max? = some M → 0 < M →
        m.food_security_score = a / M) ∧
      ((df.colD "agriculture_output").max? = some 0 →
        m.food_security_score = 0) ∧
      0 ≤ m.food_security_score ∧ m.food_security_score ≤ 1 := by
  set v := df.colD "agriculture_output" with hvdef
  have hvne : v ≠ [] := by
    have := colD_length df "agriculture_output" hc
    intro hcon
    rw [← hvdef, hcon] at this
    exact hne (List.length_eq_zero.mp this.symm)
  obtain ⟨M, hM⟩ : ∃ M, v.max? = some M := by
    cases hm : v.max? with
    | none => exact absurd (List.max?_eq_none_iff.mp hm) hvne
    | some M => exact ⟨M, rfl⟩
  obtain ⟨a, ha⟩ : ∃ a, meanQ v = some a := by
    unfold meanQ
    rw [if_neg (fun hc0 => hvne (List.length_eq_zero.mp hc0))]
    exact ⟨_, rfl⟩
  have hbounds := meanQ_nonneg_le_max hvne hnn hM ha
  have hMnn : 0 ≤ M := le_trans hbounds.1 hbounds.2
  have hscore : foodSecurityScoreQ v = if 0 < M then a / M else 0 := by
    unfold foodSecurityScoreQ
    rw [hM, ha]
    rfl
  refine ⟨{ total_agriculture_output := v.sum,
            average_output_per_household := meanQ v,
            median_output_per_household := medianQ v,
            output_std := sampleVarQ v,
            food_security_score := foodSecurityScoreQ v,
            household_count := df.rows.length }, ?_, ?_, ?_, ?_, ?_⟩
  · simp [analyze_agriculture_output, hc, ← hvdef]
  · intro a' M' ha' hM' hpos
    rw [hM'] at hM
    rw [ha'] at ha
    cases hM
    cases ha
    simp only [hscore, if_pos hpos]
  · intro h0
    rw [h0] at hM
    cases hM
    simp [hscore]
  · rw [hscore]
    split
    · exact div_nonneg hbounds.1 hMnn
    · exact le_refl 0
  · rw [hscore]
    split
    · rename_i hpos
      rw [div_le_one hpos]
      exact hbounds.2
    · exact zero_le_one

/-- Witness for C2 at a concrete non-negative table. -/
theorem food_security_score_spec_witness :
    ∃ m, analyze_agriculture_output ⟨["agriculture_output"], [[100], [200], [150], [180]]⟩ =
        .ok m ∧
      (∀ a M, meanQ ((⟨["agriculture_output"], [[100], [200], [150], [180]]⟩ :
          DataFrame).colD "agriculture_output") = some a →
        ((⟨["agriculture_output"], [[100], [200], [150], [180]]⟩ :
          DataFrame).colD "agriculture_output").max? = some M → 0 < M →
        m.food_security_score = a / M) ∧
      (((⟨["agriculture_output"], [[100], [200], [150], [180]]⟩ :
          DataFrame).colD "agriculture_output").max? = some 0 →
        m.food_security_score = 0) ∧
      0 ≤ m.food_security_score ∧ m.food_security_score ≤ 1 := by
  refine food_security_score_spec ⟨["agriculture_output"], [[100], [200], [150], [180]]⟩
    (by decide) (by decide) ?_
  intro x hx
  simp only [DataFrame.colD, DataFrame.colIdx] at hx
  norm_num at hx
  rcases hx with h | h | h | h <;> rw [h] <;> norm_num

/-- Core fields of the women-inclusion result, independent of which optional
keys get added: the participation rate and the balance-score formula. -/
theorem assess_women_inclusion_core_fields (df : DataFrame)
    (hc : df.hasCol "gender" = true) :
    ∃ m, assess_women_inclusion df = .ok m ∧
      m.women_participation_rate =
        (if df.rows.length > 0 then
          ((df.rows.filter
            (fun r => r.getD ((df.colIdx "gender").getD 0) 0 == 0)).length : ℚ) /
            df.rows.length
         else 0) ∧
      m.gender_balance_score = 1 - |m.women_participation_rate - 1/2| * 2 := by
  simp only [assess_women_inclusion, hc, not_true, ite_false, if_neg,
    Bool.not_eq_true, Bool.true_eq_false, Bool.false_eq_true, reduceIte]
  split
  · refine ⟨_, rfl, ?_, ?_⟩ <;> rfl
  · refine ⟨_, rfl, ?_, ?_⟩ <;> rfl

/-- C3: on every non-empty table with a `gender` column of values in
`{0, 1}`, the participation rate lies in `[0, 1]`, the balance score is
`1 - |rate - 1/2| * 2`, lies in `[0, 1]`, and equals `1` exactly when the
rate is exactly `1/2`. -/
theorem women_inclusion_balance_spec (df : DataFrame)
    (hc : df.hasCol "gender" = true) (hne : df.rows ≠ [])
    (hvals : ∀ x ∈ df.colD "gender", x = 0 ∨ x = 1) :
    ∃ m, assess_women_inclusion df = .ok m ∧
      0 ≤ m.women_participation_rate ∧ m.women_participation_rate ≤ 1 ∧
      m.gender_balance_score = 1 - |m.women_participation_rate - 1/2| * 2 ∧
      0 ≤ m.gender_balance_score ∧ m.gender_balance_score ≤ 1 ∧
      (m.gender_balance_score = 1 ↔ m.women_participation_rate = 1/2) := by
  obtain ⟨m, hm, hwpr, hgbs⟩ := assess_women_inclusion_core_fields df hc
  have hnpos : 0 < df.rows.length := List.length_pos.mpr hne
  have hnQ : (0 : ℚ) < df.rows.length := by exact_mod_cast hnpos
  have hle : (df.rows.filter
      (fun r => r.getD ((df.colIdx "gender").getD 0) 0 == 0)).length ≤
      df.rows.length := List.length_filter_le _ _
  have hwpr' : m.women_participation_rate =
      ((df.rows.filter
        (fun r => r.getD ((df.colIdx "gender").getD 0) 0 == 0)).length : ℚ) /
        df.rows.length := by
    rw [hwpr, if_pos hnpos]
  have h0 : 0 ≤ m.women_participation_rate := by
    rw [hwpr']
    positivity
  have h1 : m.women_participation_rate ≤ 1 := by
    rw [hwpr', div_le_one hnQ]
    exact_mod_cast hle
  have habs : |m.women_participation_rate - 1/2| ≤ 1/2 := by
    rw [abs_le]
    constructor <;> linarith
  refine ⟨m, hm, h0, h1, hgbs, ?_, ?_, ?_⟩
  · rw [hgbs]
    linarith [abs_nonneg (m.women_participation_rate - 1/2)]
  · rw [hgbs]
    linarith [abs_nonneg (m.women_participation_rate - 1/2)]
  · rw [hgbs]
    constructor
    · intro h
      have : |m.women_participation_rate - 1/2| = 0 := by linarith
      have := abs_eq_zero.mp this
      linarith
    · intro h
      rw [h]
      norm_num

/-- Witness for C3 at a concrete balanced table. -/
theorem women_inclusion_balance_spec_witness :
    ∃ m, assess_women_inclusion ⟨["gender"], [[0], [0], [1], [1]]⟩ = .ok m ∧
      0 ≤ m.women_participation_rate ∧ m.women_participation_rate ≤ 1 ∧
      m.gender_balance_score = 1 - |m.women_participation_rate - 1/2| * 2 ∧
      0 ≤ m.gender_balance_score ∧ m.gender_balance_score ≤ 1 ∧
      (m.gender_balance_score = 1 ↔ m.women_participation_rate = 1/2) := by
  refine women_inclusion_balance_spec ⟨["gender"], [[0], [0], [1], [1]]⟩
    (by decide) (by decide) ?_
  intro x hx
  simp only [DataFrame.colD, DataFrame.colIdx] at hx
  norm_num at hx
  rcases hx with h | h <;> rw [h] <;> norm_num

/-- Core fields of the credit-access result, unfolded against the source
computation. -/
theorem calculate_credit_access_metrics_fields (df : DataFrame)
    (hc1 : df.hasCol "credit_approved" = true)
    (hc2 : df.hasCol "loan_amount" = true) :
    ∃ m, calculate_credit_access_metrics df = .ok m ∧
      m.total_applications = df.rows.length ∧
      m.total_approved = (df.rows.filter
        (fun r => r.getD ((df.colIdx "credit_approved").getD 0) 0 == 1)).length ∧
      m.total_rejected = df.rows.length - m.total_approved ∧
      m.credit_approval_rate =
        (if df.rows.length > 0 then (m.total_approved : ℚ) / df.rows.length else 0) ∧
      m.rejection_rate =
        (if df.rows.length > 0 then (m.total_rejected : ℚ) / df.rows.length else 0) := by
  simp only [calculate_credit_access_metrics, hc1, hc2, Bool.not_eq_true,
    Bool.true_eq_false, if_false, ite_false, Bool.false_eq_true]
  refine ⟨_, rfl, ?_, ?_, ?_, ?_, ?_⟩ <;> rfl

/-- C4: on every non-empty table with a binary `credit_approved` column and a
non-negative `loan_amount` column, approved plus rejected counts equal the
row count, and approval rate plus rejection rate equal `1` exactly. -/
theorem credit_access_conservation (df : DataFrame)
    (hc1 : df.hasCol "credit_approved" = true)
    (hc2 : df.hasCol "loan_amount" = true)
    (hne : df.rows ≠ [])
    (hbin : ∀ x ∈ df.colD "credit_approved", x = 0 ∨ x = 1)
    (hnn : ∀ x ∈ df.colD "loan_amount", 0 ≤ x) :
    ∃ m, calculate_credit_access_metrics df = .ok m ∧
      m.total_applications = df.rows.length ∧
      m.total_approved + m.total_rejected = m.total_applications ∧
      m.credit_approval_rate + m.rejection_rate = 1 := by
  have hnpos : 0 < df.rows.length := List.length_pos.mpr hne
  have hnQ : (0 : ℚ) < df.rows.length := by exact_mod_cast hnpos
  obtain ⟨m, hm, happ, happr, hrej, hrate, hrrate⟩ :=
    calculate_credit_access_metrics_fields df hc1 hc2
  have hle : m.total_approved ≤ df.rows.length := by
    rw [happr]
    exact List.length_filter_le _ _
  refine ⟨m, hm, happ, ?_, ?_⟩
  · rw [hrej, happ]
    exact Nat.add_sub_cancel' hle
  · rw [hrate, hrrate, if_pos hnpos, if_pos hnpos, hrej, div_add_div_same,
      Nat.cast_sub hle, add_sub_cancel]
    exact div_self (ne_of_gt hnQ)

/-- Witness for C4 at a concrete table. -/
theorem credit_access_conservation_witness :
    ∃ m, calculate_credit_access_metrics
        ⟨["credit_approved", "loan_amount"], [[1, 1000], [0, 0], [1, 2000], [1, 1500]]⟩ =
        .ok m ∧
      m.total_applications = 4 ∧
      m.total_approved + m.total_rejected = m.total_applications ∧
      m.credit_approval_rate + m.rejection_rate = 1 := by
  obtain ⟨m, hm, h1, h2, h3⟩ := credit_access_conservation
    ⟨["credit_approved", "loan_amount"], [[1, 1000], [0, 0], [1, 2000], [1, 1500]]⟩
    (by decide) (by decide) (by decide) (by decide) (by decide)
  exact ⟨m, hm, h1, h2, h3⟩

/-! ### C1, C8 -/

/-- C1: in outcome-based mode (non-empty table, protected attribute present,
target column provided and present) `check_for_bias` partitions the rows by
exact match of the protected attribute against the privileged and the
unprivileged value, takes the mean of the target column in each subset
(`subsetRate`), stores both rates in `demographic_parity`, sets
`statistical_parity_difference` to `|privileged rate - unprivileged rate|`,
and reports bias exactly when that difference strictly exceeds the
threshold. -/
theorem check_for_bias_outcome_mode (df : DataFrame) (pa t : String)
    (pv uv thr p u : ℚ)
    (hne : df.isEmpty = false) (hpa : df.hasCol pa = true)
    (ht : t ≠ "") (htc : df.hasCol t = true)
    (hp : subsetRate df pa pv t = some p)
    (hu : subsetRate df pa uv t = some u) :
    (check_for_bias df pa pv uv (some t) thr).demographic_parity =
      some ⟨some p, some u⟩ ∧
    (check_for_bias df pa pv uv (some t) thr).statistical_parity_difference =
      some (some |p - u|) ∧
    ((check_for_bias df pa pv uv (some t) thr).has_bias = true ↔ thr < |p - u|) := by
  simp only [check_for_bias, hne, hpa, htc, ht, Bool.false_eq_true, if_false,
    Bool.not_eq_true, Bool.true_eq_false, reduceIte, ne_eq, not_false_eq_true,
    and_self, if_true, hp, hu]
  refine ⟨rfl, rfl, ?_⟩
  simp [gtNaN, decide_eq_true_iff]

/-- Witness for C1: the spec scenario
`{gender: [0,0,1,1], outcome: [0,1,0,1]}` with `target_column = outcome` and
`threshold = 0.2`: both rates are `1/2`, the parity difference is `0`, and
`has_bias` is `false`. -/
theorem check_for_bias_outcome_mode_witness :
    (check_for_bias ⟨["gender", "outcome"], [[0, 0], [0, 1], [1, 0], [1, 1]]⟩
        "gender" 1 0 (some "outcome") (1/5)).demographic_parity =
      some ⟨some (1/2), some (1/2)⟩ ∧
    (check_for_bias ⟨["gender", "outcome"], [[0, 0], [0, 1], [1, 0], [1, 1]]⟩
        "gender" 1 0 (some "outcome") (1/5)).statistical_parity_difference =
      some (some 0) ∧
    (check_for_bias ⟨["gender", "outcome"], [[0, 0], [0, 1], [1, 0], [1, 1]]⟩
        "gender" 1 0 (some "outcome") (1/5)).has_bias = false := by
  have hso : (("gender" : String) = "outcome") = False := eq_false (by decide)
  have hp : subsetRate ⟨["gender", "outcome"], [[0, 0], [0, 1], [1, 0], [1, 1]]⟩
      "gender" 1 "outcome" = some (1/2) := by
    norm_num [subsetRate, subsetRows, meanQ, DataFrame.colIdx, List.findIdx?, hso]
    rw [show (([1, 0] : List ℚ))[1] = 0 from rfl,
      show (([1, 1] : List ℚ))[1] = 1 from rfl]
    norm_num
  have hu : subsetRate ⟨["gender", "outcome"], [[0, 0], [0, 1], [1, 0], [1, 1]]⟩
      "gender" 0 "outcome" = some (1/2) := by
    norm_num [subsetRate, subsetRows, meanQ, DataFrame.colIdx, List.findIdx?, hso]
    rw [show (([0, 0] : List ℚ))[1] = 0 from rfl,
      show (([0, 1] : List ℚ))[1] = 1 from rfl]
    norm_num
  obtain ⟨h1, h2, h3⟩ := check_for_bias_outcome_mode
    ⟨["gender", "outcome"], [[0, 0], [0, 1], [1, 0], [1, 1]]⟩
    "gender" "outcome" 1 0 (1/5) (1/2) (1/2)
    (by decide) (by decide) (by decide) (by decide) hp hu
  refine ⟨h1, ?_, ?_⟩
  · rw [h2]
    norm_num
  · cases hb : (check_for_bias ⟨["gender", "outcome"],
        [[0, 0], [0, 1], [1, 0], [1, 1]]⟩
        "gender" 1 0 (some "outcome") (1/5)).has_bias
    · rfl
    · have hx : ¬ ((1 : ℚ)/5 < |1/2 - (1 : ℚ)/2|) := by norm_num
      exact absurd (h3.mp hb) hx

/-- C8: `check_for_bias` is a total function on tables (it never raises; the
source's blanket `except` is unreachable for frame inputs).  In outcome mode
with an empty privileged or unprivileged subset, the corresponding rate and
the statistical parity difference are NaN (`none`) rather than an error, and
`has_bias` stays `false` because the Python comparison `NaN > threshold` is
false. -/
theorem check_for_bias_empty_subset_nan (df : DataFrame) (pa t : String)
    (pv uv thr : ℚ)
    (hne : df.isEmpty = false) (hpa : df.hasCol pa = true)
    (ht : t ≠ "") (htc : df.hasCol t = true)
    (hp : subsetRows df pa pv = [] ∨ subsetRows df pa uv = []) :
    (check_for_bias df pa pv uv (some t) thr).has_bias = false ∧
    (check_for_bias df pa pv uv (some t) thr).statistical_parity_difference =
      some none ∧
    (check_for_bias df pa pv uv (some t) thr).demographic_parity =
      some ⟨subsetRate df pa pv t, subsetRate df pa uv t⟩ ∧
    (subsetRows df pa pv = [] → subsetRate df pa pv t = none) ∧
    (subsetRows df pa uv = [] → subsetRate df pa uv t = none) := by
  have hrate : ∀ v, subsetRows df pa v = [] → subsetRate df pa v t = none := by
    intro v hv
    unfold subsetRate
    rw [hv]
    rfl
  simp only [check_for_bias, hne, hpa, htc, ht, Bool.false_eq_true, if_false,
    Bool.not_eq_true, Bool.true_eq_false, reduceIte, ne_eq, not_false_eq_true,
    and_self, if_true]
  rcases hp with h | h
  · rw [hrate _ h]
    exact ⟨rfl, rfl, rfl, fun _ => rfl, fun h' => hrate _ h'⟩
  · rw [hrate _ h]
    cases hcase : subsetRate df pa pv t
    · exact ⟨rfl, rfl, rfl, fun _ => rfl, fun _ => rfl⟩
    · exact ⟨rfl, rfl, rfl,
        fun h' => Option.noConfusion (hcase.symm.trans (hrate pv h')),
        fun _ => rfl⟩

/-- Witness for C8 at a table whose privileged subset (`gender == 1`) is
empty. -/
theorem check_for_bias_empty_subset_nan_witness :
    (check_for_bias ⟨["gender", "outcome"], [[0, 1], [0, 0]]⟩
        "gender" 1 0 (some "outcome") (1/5)).has_bias = false ∧
    (check_for_bias ⟨["gender", "outcome"], [[0, 1], [0, 0]]⟩
        "gender" 1 0 (some "outcome") (1/5)).statistical_parity_difference =
      some none ∧
    (check_for_bias ⟨["gender", "outcome"], [[0, 1], [0, 0]]⟩
        "gender" 1 0 (some "outcome") (1/5)).demographic_parity =
      some ⟨subsetRate ⟨["gender", "outcome"], [[0, 1], [0, 0]]⟩ "gender" 1 "outcome",
            subsetRate ⟨["gender", "outcome"], [[0, 1], [0, 0]]⟩ "gender" 0 "outcome"⟩ ∧
    (subsetRows ⟨["gender", "outcome"], [[0, 1], [0, 0]]⟩ "gender" 1 = [] →
      subsetRate ⟨["gender", "outcome"], [[0, 1], [0, 0]]⟩ "gender" 1 "outcome" = none) ∧
    (subsetRows ⟨["gender", "outcome"], [[0, 1], [0, 0]]⟩ "gender" 0 = [] →
      subsetRate ⟨["gender", "outcome"], [[0, 1], [0, 0]]⟩ "gender" 0 "outcome" = none) :=
  check_for_bias_empty_subset_nan ⟨["gender", "outcome"], [[0, 1], [0, 0]]⟩
    "gender" "outcome" 1 0 (1/5)
    (by decide) (by decide) (by decide) (by decide) (Or.inl (by decide))

/-! ### C9 -/

/-- `foodSecurityScoreQ` only depends on the multiset of values. -/
theorem foodSecurityScoreQ_perm {l l' : List ℚ} (h : l.Perm l') :
    foodSecurityScoreQ l = foodSecurityScoreQ l' := by
  unfold foodSecurityScoreQ
  rw [max?_perm h, meanQ_perm h]

/-- A present or absent column of a row-permuted frame is a permutation of
the original column. -/
theorem colD_perm (c : List String) {r r' : List (List ℚ)} (h : r.Perm r')
    (n : String) :
    ((⟨c, r⟩ : DataFrame).colD n).Perm ((⟨c, r'⟩ : DataFrame).colD n) := by
  unfold DataFrame.colD DataFrame.colIdx
  cases c.findIdx? (fun x => x == n) <;> simp [h.map]

/-- C9: the three metric functions are order-independent over rows: a
permutation of the rows leaves every returned metric unchanged.  (The
embedded functions are pure Lean functions, so absence of input mutation and
of side effects holds by construction.) -/
theorem metrics_row_order_invariant (c : List String) (r r' : List (List ℚ))
    (h : r.Perm r') :
    calculate_credit_access_metrics ⟨c, r⟩ = calculate_credit_access_metrics ⟨c, r'⟩ ∧
    analyze_agriculture_output ⟨c, r⟩ = analyze_agriculture_output ⟨c, r'⟩ ∧
    assess_women_inclusion ⟨c, r⟩ = assess_women_inclusion ⟨c, r'⟩ := by
  have hlen : r.length = r'.length := h.length_eq
  have hhc : ∀ n, DataFrame.hasCol ⟨c, r⟩ n = DataFrame.hasCol ⟨c, r'⟩ n :=
    fun _ => rfl
  have hcidx : ∀ n, DataFrame.colIdx ⟨c, r⟩ n = DataFrame.colIdx ⟨c, r'⟩ n :=
    fun _ => rfl
  have hfl : ∀ p : List ℚ → Bool,
      (List.filter p r).length = (List.filter p r').length :=
    fun p => (h.filter p).length_eq
  have hffl : ∀ p q : List ℚ → Bool,
      (List.filter q (List.filter p r)).length =
        (List.filter q (List.filter p r')).length :=
    fun p q => ((h.filter p).filter q).length_eq
  have hfm : ∀ (p : List ℚ → Bool) (f : List ℚ → ℚ),
      meanQ (List.map f (List.filter p r)) = meanQ (List.map f (List.filter p r')) :=
    fun p f => meanQ_perm ((h.filter p).map f)
  refine ⟨?_, ?_, ?_⟩
  · simp only [calculate_credit_access_metrics, hhc, hcidx, hlen, hfl, hfm]
  · have hv := colD_perm c h "agriculture_output"
    simp only [analyze_agriculture_output, hhc, hv.sum_eq, meanQ_perm hv,
      medianQ_perm hv, sampleVarQ_perm hv, foodSecurityScoreQ_perm hv, hlen]
  · simp only [assess_women_inclusion, hhc, hcidx, hlen, hfl, hffl, hfm]

/-- Witness for C9 at concrete two-row tables with swapped rows. -/
theorem metrics_row_order_invariant_witness :
    calculate_credit_access_metrics
        ⟨["credit_approved", "loan_amount"], [[1, 1000], [0, 0]]⟩ =
      calculate_credit_access_metrics
        ⟨["credit_approved", "loan_amount"], [[0, 0], [1, 1000]]⟩ ∧
    analyze_agriculture_output
        ⟨["credit_approved", "loan_amount"], [[1, 1000], [0, 0]]⟩ =
      analyze_agriculture_output
        ⟨["credit_approved", "loan_amount"], [[0, 0], [1, 1000]]⟩ ∧
    assess_women_inclusion
        ⟨["credit_approved", "loan_amount"], [[1, 1000], [0, 0]]⟩ =
      assess_women_inclusion
        ⟨["credit_approved", "loan_amount"], [[0, 0], [1, 1000]]⟩ :=
  metrics_row_order_invariant ["credit_approved", "loan_amount"]
    [[1, 1000], [0, 0]] [[0, 0], [1, 1000]] (List.Perm.swap _ _ _)

end Dalberg
